import Mathlib

/-!
Shallow embedding of `src/pgduckdb_planner.cpp` (pg_duckdb planner bridge).

The planner bridge lives in a single C++ translation unit:
`DuckdbPrepare` deparses a copied query tree and prepares it against DuckDB,
`CreatePlan` synthesizes a `CustomScan` node from the prepared statement's
result schema, and `DuckdbPlanNode` packages that node into a `PlannedStmt`.

Host (PostgreSQL) and engine (DuckDB) externals are oracles in an `Env`
record.  Mutable process state (the heap of query objects, the
`search_path` GUC with its nest-level save stack, the `duckdb_explain_analyze`
global, the active portal's command tag, and the elog output) is threaded
explicitly through a `PgState`.  Query objects live in a heap addressed by
index so that "deep copy" and "the caller's tree is unchanged" are real
statements about object identity rather than vacuities of value semantics.
-/

namespace PgDuckdb

/-- PostgreSQL object identifier (`Oid`). -/
abbrev Oid := Nat

/-- `InvalidOid` sentinel. -/
def InvalidOid : Oid := 0

/-- `OidIsValid` from the host headers. -/
def OidIsValid (o : Oid) : Bool := o != 0

/-- Opaque descriptor of a DuckDB logical type (`duckdb::LogicalType`). -/
abbrev DuckType := Nat

/-- Opaque `PlannerInfo *` produced by the host's `subquery_planner`. -/
abbrev PlannerInfo := Nat

/-- `ParamListInfo`: `none` models a NULL bound-parameter list. -/
abbrev ParamListInfo := Option Nat

/-- Host command tags; only `CMDTAG_EXPLAIN` is distinguished by the code. -/
abbrev CommandTag := Nat

/-- Abstract value of the host's `CMDTAG_EXPLAIN` tag. -/
def CMDTAG_EXPLAIN : CommandTag := 35

/-- elog severity `DEBUG2` (host `elog.h`). -/
def DEBUG2 : Nat := 13

/-- elog severity `WARNING` (host `elog.h`). -/
def WARNING : Nat := 19

/-- `PVC_RECURSE_AGGREGATES` flag bit (host `optimizer.h`). -/
def PVC_RECURSE_AGGREGATES : Nat := 2

/-- `PVC_RECURSE_WINDOWFUNCS` flag bit (host `optimizer.h`). -/
def PVC_RECURSE_WINDOWFUNCS : Nat := 8

/-- `PVC_RECURSE_PLACEHOLDERS` flag bit (host `optimizer.h`). -/
def PVC_RECURSE_PLACEHOLDERS : Nat := 32

/-- The flag word built in `DuckdbPrepare`:
`PVC_RECURSE_AGGREGATES | PVC_RECURSE_WINDOWFUNCS | PVC_RECURSE_PLACEHOLDERS`. -/
def pvcFlags : Nat := PVC_RECURSE_AGGREGATES ||| PVC_RECURSE_WINDOWFUNCS ||| PVC_RECURSE_PLACEHOLDERS

/-- `INDEX_VAR` special varno (host `primnodes.h`). -/
def INDEX_VAR : Nat := 65002

/-- The host `Query` node, restricted to the fields this translation unit
reads: command type, query id, utility statement, statement location/length,
tag and modifying-CTE flags, returning list, target list, range table and
join-tree qualifiers.  Expressions and range-table entries are opaque. -/
structure Query where
  commandType : Nat
  queryId : Nat
  utilityStmt : Option Nat
  stmt_location : Int
  stmt_len : Int
  canSetTag : Bool
  hasModifyingCTE : Bool
  returningList : List Nat
  targetList : List Nat
  rtable : List Nat
  jointreeQuals : Option Nat
deriving Repr, DecidableEq, Inhabited

/-- A DuckDB prepared statement handle: an error state and the ordered
result columns, each a (logical type, column name) pair.  `GetTypes` and
`GetNames` project the two components. -/
structure PreparedStatement where
  error : Option String
  columns : List (DuckType × String)
deriving Repr, DecidableEq, Inhabited

/-- `duckdb::PreparedStatement::HasError`. -/
def PreparedStatement.HasError (p : PreparedStatement) : Bool := p.error.isSome

/-- `duckdb::PreparedStatement::GetError`. -/
def PreparedStatement.GetError (p : PreparedStatement) : String := p.error.getD ""

/-- `duckdb::PreparedStatement::GetTypes`. -/
def PreparedStatement.GetTypes (p : PreparedStatement) : List DuckType := p.columns.map Prod.fst

/-- `duckdb::PreparedStatement::GetNames`. -/
def PreparedStatement.GetNames (p : PreparedStatement) : List String := p.columns.map Prod.snd

/-- The fields of a `pg_type` catalog row read by `CreatePlan`. -/
structure TypeForm where
  typtypmod : Int
  typcollation : Oid
deriving Repr, DecidableEq, Inhabited

/-- A DuckDB connection, identified by the arguments of the
`pgduckdb::DuckdbCreateConnection` call that produced it. -/
structure Connection where
  rtables : List Nat
  planner_info : PlannerInfo
  vars : List Nat
  text : String
deriving Repr, DecidableEq, Inhabited

/-- The two `Node *` shapes handed to the host's `pull_var_clause` by this
code: a target list cast to a node, and a join-tree quals expression. -/
inductive Node where
  | ofTargetList : List Nat → Node
  | ofQuals : Option Nat → Node
deriving Repr, DecidableEq

/-- The `PlannerGlobal` record built by `PlanQuery`, with exactly the fields
the code assigns. -/
structure PlannerGlobal where
  boundParams : ParamListInfo
  subplans : List Nat
  rewindPlanIDs : List Nat
  finalrtable : List Nat
  finalrowmarks : List Nat
  resultRelations : List Nat
  relationOids : List Nat
  invalItems : List Nat
  paramExecTypes : List Nat
  lastPHId : Nat
  lastRowMarkId : Nat
  lastPlanNodeId : Nat
  transientPlan : Bool
  dependsOnRole : Bool
deriving Repr, DecidableEq, Inhabited

/-- External collaborators (host planner/catalog/deparser utilities and the
DuckDB engine), as oracle functions.  `pgduckdb_pg_get_querydef` may fail
with a host error (`elog(ERROR, ...)` unwinding), modelled as `Except`. -/
structure Env where
  pgduckdb_pg_get_querydef : Query → Bool → Except String String
  pull_var_clause : Node → Nat → List Nat
  subquery_planner : PlannerGlobal → Query → Query × PlannerInfo
  Prepare : Connection → String → PreparedStatement
  GetPostgresDuckDBType : DuckType → Oid
  SearchSysCache1 : Oid → Option TypeForm

/-- The mutable process state threaded through the planner bridge:
the heap of `Query` objects (addressed by index, standing in for pointers),
the `search_path` GUC with its nest-level save stack, the
`duckdb_explain_analyze` global, the active portal's command tag, and the
elog output as a list of (severity, message) pairs. -/
structure PgState where
  heap : List Query
  searchPath : String
  gucNestLevel : Nat
  gucSaves : List (Nat × String)
  duckdb_explain_analyze : Bool
  activePortalTag : Option CommandTag
  log : List (Nat × String)
deriving Repr, DecidableEq, Inhabited

/-- `elog`: append a (severity, message) record to the process log. -/
def elog (lvl : Nat) (msg : String) (s : PgState) : PgState :=
  { s with log := s.log ++ [(lvl, msg)] }

/-- `NewGUCNestLevel`: enter a fresh GUC nest level and return it. -/
def NewGUCNestLevel (s : PgState) : Nat × PgState :=
  (s.gucNestLevel + 1, { s with gucNestLevel := s.gucNestLevel + 1 })

/-- `SetConfigOption(name, value, PGC_USERSET, PGC_S_SESSION)`: for the one
GUC this code touches (`search_path`), record the old value on the save
stack tagged with the current nest level and install the new value. -/
def SetConfigOption (name value : String) (s : PgState) : PgState :=
  if name = "search_path" then
    { s with searchPath := value, gucSaves := (s.gucNestLevel, s.searchPath) :: s.gucSaves }
  else s

/-- Roll the save stack back to just below `level`: undo every save made at
nest level ≥ `level`, newest first, restoring the saved values. -/
def rollbackSaves : List (Nat × String) → Nat → String → List (Nat × String) × String
  | [], _, cur => ([], cur)
  | (l, v) :: rest, level, cur =>
    if level ≤ l then rollbackSaves rest level v else ((l, v) :: rest, cur)

/-- `AtEOXact_GUC(isCommit, level)`: with `isCommit = false` (the only call
this code makes) roll back every GUC change made at nest level ≥ `level`;
with `isCommit = true` the changes at those levels are kept and their save
records dropped. -/
def AtEOXact_GUC (isCommit : Bool) (level : Nat) (s : PgState) : PgState :=
  if isCommit then
    { s with gucSaves := s.gucSaves.filter (fun p => p.1 < level),
             gucNestLevel := level - 1 }
  else
    let r := rollbackSaves s.gucSaves level s.searchPath
    { s with gucSaves := r.1, searchPath := r.2, gucNestLevel := level - 1 }

/-- Modelled from the spec: when deparsing fails the host's error unwinding
aborts the planning attempt and releases the scoped name-resolution override
on that failure path too (the scoped-release invariant of §4.1/§8); the
release code for the abort path lives in the host, outside this repository. -/
def abortScopedGUC (save_nestlevel : Nat) (s : PgState) : PgState :=
  AtEOXact_GUC false save_nestlevel s

/-- `PlanQuery`: build the `PlannerGlobal` exactly as the code does and hand
the parse tree to the host's `subquery_planner`, which may rewrite it; the
(possibly mutated) tree and the resulting planner info are returned. -/
def PlanQuery (env : Env) (parse : Query) (bound_params : ParamListInfo) :
    Query × PlannerInfo :=
  let glob : PlannerGlobal :=
    { boundParams := bound_params, subplans := [], rewindPlanIDs := [],
      finalrtable := [], finalrowmarks := [], resultRelations := [],
      relationOids := [], invalItems := [], paramExecTypes := [],
      lastPHId := 0, lastRowMarkId := 0, lastPlanNodeId := 0,
      transientPlan := false, dependsOnRole := false }
  env.subquery_planner glob parse

/-- The pair returned by `DuckdbPrepare`: the prepared statement and the
connection it was prepared on. -/
structure DuckdbPrepareResult where
  prepared : PreparedStatement
  conn : Connection
deriving Repr, DecidableEq, Inhabited

/-- `DuckdbPrepare(query, bound_params)`.  `qi` is the caller's pointer to
the query tree (a heap index).  Steps, in source order: deep-copy the tree
(`copyObjectImpl`), clear `search_path` inside a fresh GUC nest level,
deparse the copy, restore the nest level, wrap the text in an EXPLAIN
prefix when the active portal is an explain request (choosing
`EXPLAIN ANALYZE` when the `duckdb_explain_analyze` global is set), log the
text at DEBUG2, read the copy's range table and pull the referenced vars
from its target list and join-tree quals, plan the copy (which may mutate
it), create a DuckDB connection from those pieces and prepare the text. -/
def DuckdbPrepare (env : Env) (s : PgState) (qi : Nat) (bound_params : ParamListInfo) :
    Except String DuckdbPrepareResult × PgState :=
  let query := (s.heap[qi]?).getD default
  let ci := s.heap.length
  let s := { s with heap := s.heap ++ [query] }
  let copied_query := query
  let save := NewGUCNestLevel s
  let save_nestlevel := save.1
  let s := save.2
  let s := SetConfigOption "search_path" "" s
  match env.pgduckdb_pg_get_querydef copied_query false with
  | .error e => (.error e, abortScopedGUC save_nestlevel s)
  | .ok deparsed =>
    let s := AtEOXact_GUC false save_nestlevel s
    let query_string :=
      if s.activePortalTag = some CMDTAG_EXPLAIN then
        if s.duckdb_explain_analyze then "EXPLAIN ANALYZE " ++ deparsed
        else "EXPLAIN " ++ deparsed
      else deparsed
    let s := elog DEBUG2 ("(PGDuckDB/DuckdbPrepare) Preparing: " ++ query_string) s
    let rtables := copied_query.rtable
    let flags := pvcFlags
    let vars := env.pull_var_clause (Node.ofTargetList copied_query.targetList) flags
                ++ env.pull_var_clause (Node.ofQuals copied_query.jointreeQuals) flags
    let pq := PlanQuery env copied_query bound_params
    let s := { s with heap := s.heap.set ci pq.1 }
    let duckdb_connection : Connection :=
      { rtables := rtables, planner_info := pq.2, vars := vars, text := query_string }
    let prepared_query := env.Prepare duckdb_connection query_string
    (.ok { prepared := prepared_query, conn := duckdb_connection }, s)

/-- A `Var` node with the fields `makeVar` sets. -/
structure Var where
  varno : Nat
  varattno : Nat
  vartype : Oid
  vartypmod : Int
  varcollid : Oid
  varlevelsup : Nat
deriving Repr, DecidableEq, Inhabited

/-- `makeVar` from the host's `makefuncs.c`. -/
def makeVar (varno varattno : Nat) (vartype : Oid) (vartypmod : Int)
    (varcollid : Oid) (varlevelsup : Nat) : Var :=
  { varno := varno, varattno := varattno, vartype := vartype,
    vartypmod := vartypmod, varcollid := varcollid, varlevelsup := varlevelsup }

/-- A `TargetEntry` with the fields `makeTargetEntry` sets. -/
structure TargetEntry where
  expr : Var
  resno : Nat
  resname : String
  resjunk : Bool
deriving Repr, DecidableEq, Inhabited

/-- `makeTargetEntry` from the host's `makefuncs.c`. -/
def makeTargetEntry (expr : Var) (resno : Nat) (resname : String) (resjunk : Bool) :
    TargetEntry :=
  { expr := expr, resno := resno, resname := resname, resjunk := resjunk }

/-- Stand-in for the address of `duckdb_scan_scan_methods`. -/
def duckdb_scan_scan_methods : Nat := 0

/-- The `CustomScan` node `CreatePlan` builds: the synthesized scan target
list, the private list holding the original query pointer, and the scan
methods pointer. -/
structure CustomScan where
  custom_scan_tlist : List TargetEntry
  custom_private : List Nat
  methods : Nat
deriving Repr, DecidableEq, Inhabited

/-- The per-column loop of `CreatePlan` over the prepared statement's result
columns, starting at index `i`: map each engine type to a host type oid
(`GetPostgresDuckDBType`); if the oid is invalid, or the `pg_type` syscache
has no row for it, fail with the warning text the code logs; otherwise build
the `INDEX_VAR` target entry carrying the column's name and recurse. -/
def SynthTargetList (env : Env) : List (DuckType × String) → Nat → Except String (List TargetEntry)
  | [], _ => .ok []
  | (ty, nm) :: rest, i =>
    let postgresColumnOid := env.GetPostgresDuckDBType ty
    if !(OidIsValid postgresColumnOid) then
      .error ("(PGDuckDB/CreatePlan) Cache lookup failed for type " ++ toString postgresColumnOid)
    else
      match env.SearchSysCache1 postgresColumnOid with
      | none =>
        .error ("(PGDuckDB/CreatePlan) Cache lookup failed for type " ++ toString postgresColumnOid)
      | some typtup =>
        (SynthTargetList env rest (i + 1)).map
          (fun tl =>
            makeTargetEntry
              (makeVar INDEX_VAR (i + 1) postgresColumnOid typtup.typtypmod typtup.typcollation 0)
              (i + 1) nm false :: tl)

/-- `CreatePlan(query, bound_params)`: prepare via `DuckdbPrepare`; if the
prepared statement carries an error, log it at WARNING and return null;
otherwise synthesize the scan target list column by column, logging at
WARNING and returning null on the first unmappable column, and on success
return the `CustomScan` node holding the original query in its private
list. -/
def CreatePlan (env : Env) (s : PgState) (qi : Nat) (bound_params : ParamListInfo) :
    Except String (Option CustomScan) × PgState :=
  match DuckdbPrepare env s qi bound_params with
  | (.error e, s) => (.error e, s)
  | (.ok prep, s) =>
    let prepared_query := prep.prepared
    if prepared_query.HasError then
      (.ok none,
       elog WARNING
         ("(PGDuckDB/CreatePlan) Prepared query returned an error: '" ++ prepared_query.GetError) s)
    else
      match SynthTargetList env prepared_query.columns 0 with
      | .error msg => (.ok none, elog WARNING msg s)
      | .ok tlist =>
        (.ok (some { custom_scan_tlist := tlist, custom_private := [qi],
                     methods := duckdb_scan_scan_methods }), s)

/-- The `PlannedStmt` record with exactly the fields `DuckdbPlanNode`
assigns. -/
structure PlannedStmt where
  commandType : Nat
  queryId : Nat
  hasReturning : Bool
  hasModifyingCTE : Bool
  canSetTag : Bool
  transientPlan : Bool
  dependsOnRole : Bool
  parallelModeNeeded : Bool
  planTree : CustomScan
  rtable : List Nat
  permInfos : List Nat
  resultRelations : List Nat
  appendRelations : List Nat
  subplans : List Nat
  rewindPlanIDs : List Nat
  rowMarks : List Nat
  relationOids : List Nat
  invalItems : List Nat
  paramExecTypes : List Nat
  utilityStmt : Option Nat
  stmt_location : Int
  stmt_len : Int
deriving Repr, DecidableEq, Inhabited

/-- The field assignments `DuckdbPlanNode` performs on the `PlannedStmt` it
builds, in source order: flags and locations taken from the parse tree, the
returning flag computed from the returning list, the three boolean plan
properties forced false, the scan node installed as the plan tree, and every
auxiliary plan list left empty. -/
def BuildPlannedStmt (parse : Query) (duckdb_plan : CustomScan) : PlannedStmt :=
  { commandType := parse.commandType
    queryId := parse.queryId
    hasReturning := !parse.returningList.isEmpty
    hasModifyingCTE := parse.hasModifyingCTE
    canSetTag := parse.canSetTag
    transientPlan := false
    dependsOnRole := false
    parallelModeNeeded := false
    planTree := duckdb_plan
    rtable := []
    permInfos := []
    resultRelations := []
    appendRelations := []
    subplans := []
    rewindPlanIDs := []
    rowMarks := []
    relationOids := []
    invalItems := []
    paramExecTypes := []
    utilityStmt := parse.utilityStmt
    stmt_location := parse.stmt_location
    stmt_len := parse.stmt_len }

/-- `DuckdbPlanNode(parse, cursor_options, bound_params)`: run `CreatePlan`;
on null return null; on success package the scan node into a `PlannedStmt`
via `BuildPlannedStmt`, reading the parse tree through the caller's pointer.
`cursor_options` is accepted and never read. -/
def DuckdbPlanNode (env : Env) (s : PgState) (qi : Nat) (cursor_options : Int)
    (bound_params : ParamListInfo) : Except String (Option PlannedStmt) × PgState :=
  match CreatePlan env s qi bound_params with
  | (.error e, s) => (.error e, s)
  | (.ok none, s) => (.ok none, s)
  | (.ok (some duckdb_plan), s) =>
    (.ok (some (BuildPlannedStmt ((s.heap[qi]?).getD default) duckdb_plan)), s)

/-- A result column is unmappable when the Type Mapper yields the invalid
oid, or the host catalog has no `pg_type` row for the mapped oid: exactly
the two conditions on which `CreatePlan`'s loop bails out. -/
def ColumnUnmappable (env : Env) (c : DuckType × String) : Prop :=
  OidIsValid (env.GetPostgresDuckDBType c.1) = false ∨
  env.SearchSysCache1 (env.GetPostgresDuckDBType c.1) = none

instance (env : Env) (c : DuckType × String) : Decidable (ColumnUnmappable env c) := by
  unfold ColumnUnmappable
  infer_instance

/-! ### Helper lemmas -/

theorem synthTargetList_total (env : Env) (cols : List (DuckType × String)) (i : Nat)
    (h : ∀ c ∈ cols, OidIsValid (env.GetPostgresDuckDBType c.1) = true ∧
         (env.SearchSysCache1 (env.GetPostgresDuckDBType c.1)).isSome = true) :
    ∃ tl, SynthTargetList env cols i = .ok tl ∧ tl.length = cols.length ∧
      ∀ j, j < cols.length →
        (tl.getD j default).resname = (cols.getD j default).2 := by
  induction cols generalizing i with
  | nil => exact ⟨[], rfl, rfl, fun j hj => absurd hj (Nat.not_lt_zero j)⟩
  | cons c rest ih =>
    obtain ⟨ty, nm⟩ := c
    have hc := h (ty, nm) (List.mem_cons_self _ _)
    obtain ⟨typtup, hty⟩ := Option.isSome_iff_exists.mp hc.2
    obtain ⟨tl, htl, hlen, hnames⟩ := ih (i + 1) (fun c hcm => h c (List.mem_cons_of_mem _ hcm))
    refine ⟨makeTargetEntry
        (makeVar INDEX_VAR (i + 1) (env.GetPostgresDuckDBType ty) typtup.typtypmod
          typtup.typcollation 0) (i + 1) nm false :: tl, ?_, by simp [hlen], ?_⟩
    · simp [SynthTargetList, hc.1, hty, htl, Except.map]
    · intro j hj
      cases j with
      | zero => simp [makeTargetEntry]
      | succ j' =>
        simp only [List.getD_cons_succ]
        simp only [List.length_cons] at hj
        exact hnames j' (Nat.lt_of_succ_lt_succ hj)

theorem synthTargetList_err (env : Env) (cols : List (DuckType × String)) (i : Nat)
    (h : ∃ c ∈ cols, ColumnUnmappable env c) :
    ∃ c ∈ cols, ColumnUnmappable env c ∧
      SynthTargetList env cols i =
        .error ("(PGDuckDB/CreatePlan) Cache lookup failed for type " ++
                toString (env.GetPostgresDuckDBType c.1)) := by
  induction cols generalizing i with
  | nil => simp at h
  | cons c rest ih =>
    obtain ⟨ty, nm⟩ := c
    by_cases hv : OidIsValid (env.GetPostgresDuckDBType ty) = true
    · cases hs : env.SearchSysCache1 (env.GetPostgresDuckDBType ty) with
      | none =>
        refine ⟨(ty, nm), List.mem_cons_self _ _, Or.inr hs, ?_⟩
        simp [SynthTargetList, hv, hs]
      | some typtup =>
        have hrest : ∃ c ∈ rest, ColumnUnmappable env c := by
          obtain ⟨c, hmem, hcu⟩ := h
          rcases List.mem_cons.mp hmem with rfl | hmem'
          · rcases hcu with h1 | h1
            · rw [hv] at h1; cases h1
            · rw [hs] at h1; cases h1
          · exact ⟨c, hmem', hcu⟩
        obtain ⟨c, hmem, hcu, herr⟩ := ih (i + 1) hrest
        refine ⟨c, List.mem_cons_of_mem _ hmem, hcu, ?_⟩
        simp [SynthTargetList, hv, hs, herr, Except.map]
    · have hvf : OidIsValid (env.GetPostgresDuckDBType ty) = false := by simpa using hv
      refine ⟨(ty, nm), List.mem_cons_self _ _, Or.inl hvf, ?_⟩
      simp [SynthTargetList, hvf]

theorem rollbackSaves_stop (saves : List (Nat × String)) (level : Nat) (cur : String)
    (h : ∀ p ∈ saves, p.1 < level) : rollbackSaves saves level cur = (saves, cur) := by
  cases saves with
  | nil => rfl
  | cons p rest =>
    obtain ⟨l, v⟩ := p
    have hl : l < level := h (l, v) (List.mem_cons_self _ _)
    simp [rollbackSaves, Nat.not_le.mpr hl]

theorem duckdbPrepare_heap_frame (env : Env) (s : PgState) (qi : Nat) (bp : ParamListInfo)
    (h : qi < s.heap.length) :
    ((DuckdbPrepare env s qi bp).2).heap[qi]? = s.heap[qi]? := by
  cases hq : env.pgduckdb_pg_get_querydef ((s.heap[qi]?).getD default) false with
  | error e =>
    simp [DuckdbPrepare, hq, abortScopedGUC, AtEOXact_GUC, NewGUCNestLevel, SetConfigOption,
          List.getElem?_append_left h]
  | ok d =>
    have hlen : s.heap.length ≠ qi := by omega
    simp [DuckdbPrepare, hq, AtEOXact_GUC, NewGUCNestLevel, SetConfigOption, elog,
          List.getElem?_set_ne hlen, List.getElem?_append_left h]

theorem createPlan_heap_frame (env : Env) (s : PgState) (qi : Nat) (bp : ParamListInfo)
    (h : qi < s.heap.length) :
    ((CreatePlan env s qi bp).2).heap[qi]? = s.heap[qi]? := by
  have hp := duckdbPrepare_heap_frame env s qi bp h
  rcases hd : DuckdbPrepare env s qi bp with ⟨res, s'⟩
  rw [hd] at hp
  cases res with
  | error e =>
    simp only [CreatePlan, hd]
    exact hp
  | ok prep =>
    by_cases he : prep.prepared.HasError = true
    · simp only [CreatePlan, hd, he, if_true, elog]
      exact hp
    · cases hsy : SynthTargetList env prep.prepared.columns 0 with
      | error msg =>
        simp only [CreatePlan, hd, he, if_false, hsy, elog]
        exact hp
      | ok tl =>
        simp only [CreatePlan, hd, he, if_false, hsy]
        exact hp

theorem duckdbPlanNode_heap_frame (env : Env) (s : PgState) (qi : Nat) (co : Int)
    (bp : ParamListInfo) (h : qi < s.heap.length) :
    ((DuckdbPlanNode env s qi co bp).2).heap[qi]? = s.heap[qi]? := by
  have hp := createPlan_heap_frame env s qi bp h
  rcases hd : CreatePlan env s qi bp with ⟨res, s'⟩
  rw [hd] at hp
  cases res with
  | error e =>
    simp only [DuckdbPlanNode, hd]
    exact hp
  | ok o =>
    cases o with
    | none =>
      simp only [DuckdbPlanNode, hd]
      exact hp
    | some n =>
      simp only [DuckdbPlanNode, hd]
      exact hp

/-! ### Claim theorems -/

/-- C1: for every prepared handle that carries no error and whose result
columns all map to valid host types (a valid oid with a `pg_type` catalog
row), the `CustomScan` node built by `CreatePlan` has a scan target list
whose length equals the handle's result-column count, and for every index
`i` the entry at position `i` carries the name of the handle's result
column `i`, order exactly preserved. -/
theorem claim_c1_schema_length_and_names (env : Env) (s : PgState) (qi : Nat)
    (bp : ParamListInfo) (r : DuckdbPrepareResult) (s₁ : PgState)
    (hprep : DuckdbPrepare env s qi bp = (.ok r, s₁))
    (herr : r.prepared.HasError = false)
    (hmap : ∀ c ∈ r.prepared.columns, OidIsValid (env.GetPostgresDuckDBType c.1) = true ∧
            (env.SearchSysCache1 (env.GetPostgresDuckDBType c.1)).isSome = true) :
    ∃ node, CreatePlan env s qi bp = (.ok (some node), s₁) ∧
      node.custom_scan_tlist.length = r.prepared.columns.length ∧
      ∀ i, i < r.prepared.columns.length →
        (node.custom_scan_tlist.getD i default).resname =
          (r.prepared.columns.getD i default).2 := by
  obtain ⟨tl, htl, hlen, hnames⟩ := synthTargetList_total env r.prepared.columns 0 hmap
  refine ⟨{ custom_scan_tlist := tl, custom_private := [qi],
            methods := duckdb_scan_scan_methods }, ?_, hlen, hnames⟩
  simp [CreatePlan, hprep, herr, htl]

/-- C2: if the prepared handle carries an error, `CreatePlan` logs the
engine's error text at WARNING severity and returns null, and
`DuckdbPlanNode` then returns null as well (no planned statement is
produced), for every cursor-options value. -/
theorem claim_c2_prepare_error_null (env : Env) (s : PgState) (qi : Nat) (co : Int)
    (bp : ParamListInfo) (r : DuckdbPrepareResult) (s₁ : PgState) (e : String)
    (hprep : DuckdbPrepare env s qi bp = (.ok r, s₁))
    (herr : r.prepared.error = some e) :
    CreatePlan env s qi bp =
      (.ok none,
       elog WARNING ("(PGDuckDB/CreatePlan) Prepared query returned an error: '" ++ e) s₁) ∧
    DuckdbPlanNode env s qi co bp =
      (.ok none,
       elog WARNING ("(PGDuckDB/CreatePlan) Prepared query returned an error: '" ++ e) s₁) := by
  have hcp : CreatePlan env s qi bp =
      (.ok none,
       elog WARNING ("(PGDuckDB/CreatePlan) Prepared query returned an error: '" ++ e) s₁) := by
    simp [CreatePlan, hprep, PreparedStatement.HasError, PreparedStatement.GetError, herr]
  exact ⟨hcp, by simp [DuckdbPlanNode, hcp]⟩

/-- C3: if the prepared handle carries no error but some result column's
engine type maps to an invalid host oid, or the mapped oid has no `pg_type`
catalog row, then `CreatePlan` logs one WARNING carrying the mapped type
oid of such an offending column and returns null — no partial or corrupt
plan node is returned. -/
theorem claim_c3_unmappable_type_null (env : Env) (s : PgState) (qi : Nat)
    (bp : ParamListInfo) (r : DuckdbPrepareResult) (s₁ : PgState)
    (hprep : DuckdbPrepare env s qi bp = (.ok r, s₁))
    (herr : r.prepared.HasError = false)
    (hbad : ∃ c ∈ r.prepared.columns, ColumnUnmappable env c) :
    ∃ c ∈ r.prepared.columns, ColumnUnmappable env c ∧
      CreatePlan env s qi bp =
        (.ok none,
         elog WARNING ("(PGDuckDB/CreatePlan) Cache lookup failed for type " ++
                       toString (env.GetPostgresDuckDBType c.1)) s₁) := by
  obtain ⟨c, hmem, hcu, herrS⟩ := synthTargetList_err env r.prepared.columns 0 hbad
  exact ⟨c, hmem, hcu, by simp [CreatePlan, hprep, herr, herrS]⟩

/-- C4: `DuckdbPrepare` operates on an independent deep copy of the query
tree, so the caller's original tree (the heap object at the caller's
pointer) is unchanged — after `DuckdbPrepare` itself and after the whole
planning attempt (`DuckdbPlanNode`), on success and on every failure
path. -/
theorem claim_c4_original_tree_unchanged (env : Env) (s : PgState) (qi : Nat) (co : Int)
    (bp : ParamListInfo) (h : qi < s.heap.length) :
    ((DuckdbPrepare env s qi bp).2).heap[qi]? = s.heap[qi]? ∧
    ((DuckdbPlanNode env s qi co bp).2).heap[qi]? = s.heap[qi]? :=
  ⟨duckdbPrepare_heap_frame env s qi bp h, duckdbPlanNode_heap_frame env s qi co bp h⟩

/-- C5: after materialization inside `DuckdbPrepare` the `search_path`
value is identical to its value before the call, on every exit path —
success or deparse failure — provided the GUC save stack is well formed
(no pending save above the current nest level, which is how the host
maintains it). -/
theorem claim_c5_search_path_restored (env : Env) (s : PgState) (qi : Nat)
    (bp : ParamListInfo)
    (hwf : ∀ p ∈ s.gucSaves, p.1 ≤ s.gucNestLevel) :
    ((DuckdbPrepare env s qi bp).2).searchPath = s.searchPath := by
  have hstop : rollbackSaves s.gucSaves (s.gucNestLevel + 1) s.searchPath =
      (s.gucSaves, s.searchPath) :=
    rollbackSaves_stop _ _ _ (fun p hp => Nat.lt_succ_of_le (hwf p hp))
  cases hq : env.pgduckdb_pg_get_querydef ((s.heap[qi]?).getD default) false with
  | error e =>
    simp [DuckdbPrepare, hq, abortScopedGUC, AtEOXact_GUC, NewGUCNestLevel, SetConfigOption,
          rollbackSaves, hstop]
  | ok d =>
    simp [DuckdbPrepare, hq, AtEOXact_GUC, NewGUCNestLevel, SetConfigOption, elog,
          rollbackSaves, hstop]

/-- C6: on success `DuckdbPlanNode` packages the scan node into a
`PlannedStmt` that copies the command type, modifying-CTE flag and tag flag
from the source tree, derives the returning flag from the source tree's
returning list, and sets every auxiliary plan-list field (subplans, row
marks, result relations, relation oids, range table, rewind plan ids,
invalidation items, exec param types) to empty. -/
theorem claim_c6_planned_stmt_packaging (env : Env) (s : PgState) (qi : Nat) (co : Int)
    (bp : ParamListInfo) (node : CustomScan) (s₁ : PgState)
    (hqi : qi < s.heap.length)
    (hplan : CreatePlan env s qi bp = (.ok (some node), s₁)) :
    ∃ stmt, DuckdbPlanNode env s qi co bp = (.ok (some stmt), s₁) ∧
      stmt.commandType = ((s.heap[qi]?).getD default).commandType ∧
      stmt.hasReturning = !((s.heap[qi]?).getD default).returningList.isEmpty ∧
      stmt.hasModifyingCTE = ((s.heap[qi]?).getD default).hasModifyingCTE ∧
      stmt.canSetTag = ((s.heap[qi]?).getD default).canSetTag ∧
      stmt.subplans = [] ∧ stmt.rowMarks = [] ∧ stmt.resultRelations = [] ∧
      stmt.relationOids = [] ∧ stmt.rtable = [] ∧ stmt.rewindPlanIDs = [] ∧
      stmt.invalItems = [] ∧ stmt.paramExecTypes = [] := by
  have hframe := createPlan_heap_frame env s qi bp hqi
  rw [hplan] at hframe
  have hnode : DuckdbPlanNode env s qi co bp =
      (.ok (some (BuildPlannedStmt ((s.heap[qi]?).getD default) node)), s₁) := by
    simp [DuckdbPlanNode, hplan, hframe]
  exact ⟨_, hnode, rfl, rfl, rfl, rfl, rfl, rfl, rfl, rfl, rfl, rfl, rfl, rfl⟩

/-- C7: when the active portal is an explain request, the materialized
query text handed to the engine is the deparsed text prefixed with
"EXPLAIN ANALYZE " if the process-wide `duckdb_explain_analyze` toggle is
set and with "EXPLAIN " otherwise; the toggle only selects the prefix and
the deparsed suffix is unchanged. -/
theorem claim_c7_explain_wrapping (env : Env) (s : PgState) (qi : Nat)
    (bp : ParamListInfo) (deparsed : String) (r : DuckdbPrepareResult) (s₁ : PgState)
    (hportal : s.activePortalTag = some CMDTAG_EXPLAIN)
    (hdep : env.pgduckdb_pg_get_querydef ((s.heap[qi]?).getD default) false = .ok deparsed)
    (hprep : DuckdbPrepare env s qi bp = (.ok r, s₁)) :
    r.conn.text =
      (if s.duckdb_explain_analyze then "EXPLAIN ANALYZE " else "EXPLAIN ") ++ deparsed := by
  simp only [DuckdbPrepare, hdep] at hprep
  obtain ⟨h1, h2⟩ := Prod.mk.injEq .. ▸ hprep
  cases h1
  simp [NewGUCNestLevel, SetConfigOption, AtEOXact_GUC, hportal]
  cases s.duckdb_explain_analyze <;> simp

/-- C8: the variable list handed to the connection adapter is exactly the
concatenation of the host-rule extraction over the target list and over the
join-tree qualifiers, called with the recurse-through-aggregates,
recurse-through-window-functions and recurse-through-placeholders flags. -/
theorem claim_c8_vars_concat (env : Env) (s : PgState) (qi : Nat)
    (bp : ParamListInfo) (r : DuckdbPrepareResult) (s₁ : PgState)
    (hprep : DuckdbPrepare env s qi bp = (.ok r, s₁)) :
    r.conn.vars =
      env.pull_var_clause (Node.ofTargetList ((s.heap[qi]?).getD default).targetList) pvcFlags ++
      env.pull_var_clause (Node.ofQuals ((s.heap[qi]?).getD default).jointreeQuals) pvcFlags ∧
    pvcFlags = PVC_RECURSE_AGGREGATES ||| PVC_RECURSE_WINDOWFUNCS ||| PVC_RECURSE_PLACEHOLDERS := by
  refine ⟨?_, rfl⟩
  cases hq : env.pgduckdb_pg_get_querydef ((s.heap[qi]?).getD default) false with
  | error e => simp [DuckdbPrepare, hq] at hprep
  | ok d =>
    simp only [DuckdbPrepare, hq] at hprep
    obtain ⟨h1, h2⟩ := Prod.mk.injEq .. ▸ hprep
    cases h1
    rfl

/-- C9: the `cursor_options` argument of `DuckdbPlanNode` has no effect on
its result: any two calls differing only in `cursor_options` produce the
identical outcome and final state. -/
theorem claim_c9_cursor_options_no_effect (env : Env) (s : PgState) (qi : Nat)
    (bp : ParamListInfo) (co₁ co₂ : Int) :
    DuckdbPlanNode env s qi co₁ bp = DuckdbPlanNode env s qi co₂ bp := rfl

/-- C10: on success the `PlannedStmt` returned by `DuckdbPlanNode` carries
the source tree's query id, utility statement, statement location and
statement length unchanged; its transient-plan, depends-on-role and
parallel-mode-needed flags are false; and its returning flag is true
exactly when the source tree's returning list is non-empty. -/
theorem claim_c10_planned_stmt_extra_fields (env : Env) (s : PgState) (qi : Nat) (co : Int)
    (bp : ParamListInfo) (node : CustomScan) (s₁ : PgState)
    (hqi : qi < s.heap.length)
    (hplan : CreatePlan env s qi bp = (.ok (some node), s₁)) :
    ∃ stmt, DuckdbPlanNode env s qi co bp = (.ok (some stmt), s₁) ∧
      stmt.queryId = ((s.heap[qi]?).getD default).queryId ∧
      stmt.utilityStmt = ((s.heap[qi]?).getD default).utilityStmt ∧
      stmt.stmt_location = ((s.heap[qi]?).getD default).stmt_location ∧
      stmt.stmt_len = ((s.heap[qi]?).getD default).stmt_len ∧
      stmt.transientPlan = false ∧ stmt.dependsOnRole = false ∧
      stmt.parallelModeNeeded = false ∧
      (stmt.hasReturning = true ↔ ((s.heap[qi]?).getD default).returningList ≠ []) := by
  have hframe := createPlan_heap_frame env s qi bp hqi
  rw [hplan] at hframe
  have hnode : DuckdbPlanNode env s qi co bp =
      (.ok (some (BuildPlannedStmt ((s.heap[qi]?).getD default) node)), s₁) := by
    simp [DuckdbPlanNode, hplan, hframe]
  refine ⟨_, hnode, rfl, rfl, rfl, rfl, rfl, rfl, rfl, ?_⟩
  simp [BuildPlannedStmt]

/-! ### Concrete fixtures for the witness theorems -/

/-- A concrete query tree: one target expression, one range-table entry,
a join-tree qualifier, no returning list. -/
def wQuery : Query :=
  { commandType := 1, queryId := 42, utilityStmt := none, stmt_location := 0,
    stmt_len := 10, canSetTag := true, hasModifyingCTE := false,
    returningList := [], targetList := [7], rtable := [3], jointreeQuals := some 9 }

/-- A concrete environment: deparsing always yields "SELECT 1", variable
extraction returns the expression payloads, the planner bumps the query id
(so tree mutation by `subquery_planner` is visible), the engine prepares a
two-column error-free handle, and every engine type maps to a valid host
type with a catalog row. -/
def wEnv : Env :=
  { pgduckdb_pg_get_querydef := fun _ _ => .ok "SELECT 1",
    pull_var_clause := fun n _ =>
      match n with
      | .ofTargetList tl => tl
      | .ofQuals q => q.toList,
    subquery_planner := fun _ q => ({ q with queryId := 99 }, 5),
    Prepare := fun _ _ => { error := none, columns := [(1, "a"), (2, "b")] },
    GetPostgresDuckDBType := fun t => t + 20,
    SearchSysCache1 := fun _ => some { typtypmod := -1, typcollation := 100 } }

/-- A concrete initial state: one heap object, a non-empty search path,
no pending GUC saves, analyze toggle off, no explain portal. -/
def wState : PgState :=
  { heap := [wQuery], searchPath := "public", gucNestLevel := 0, gucSaves := [],
    duckdb_explain_analyze := false, activePortalTag := none, log := [] }

/-- The run of `DuckdbPrepare` on the base fixtures. -/
def wPrep : Except String DuckdbPrepareResult × PgState := DuckdbPrepare wEnv wState 0 none

/-- The prepared result of the base run. -/
def wR : DuckdbPrepareResult :=
  match wPrep.1 with
  | .ok r => r
  | .error _ => default

/-- The state after the base run. -/
def wS1 : PgState := wPrep.2

/-- Environment whose engine reports a prepare-time error. -/
def wEnvErr : Env :=
  { wEnv with Prepare := fun _ _ => { error := some "syntax error", columns := [] } }

/-- The run of `DuckdbPrepare` under the failing engine. -/
def wPrepErr : Except String DuckdbPrepareResult × PgState :=
  DuckdbPrepare wEnvErr wState 0 none

/-- The prepared result of the failing-engine run. -/
def wRErr : DuckdbPrepareResult :=
  match wPrepErr.1 with
  | .ok r => r
  | .error _ => default

/-- The state after the failing-engine run. -/
def wS1Err : PgState := wPrepErr.2

/-- Environment whose type mapper returns the invalid oid for every engine
type. -/
def wEnvBad : Env :=
  { wEnv with GetPostgresDuckDBType := fun _ => 0 }

/-- The run of `DuckdbPrepare` under the unmappable-type environment. -/
def wPrepBad : Except String DuckdbPrepareResult × PgState :=
  DuckdbPrepare wEnvBad wState 0 none

/-- The prepared result of the unmappable-type run. -/
def wRBad : DuckdbPrepareResult :=
  match wPrepBad.1 with
  | .ok r => r
  | .error _ => default

/-- The state after the unmappable-type run. -/
def wS1Bad : PgState := wPrepBad.2

/-- The base state with an active explain portal. -/
def wStateX : PgState := { wState with activePortalTag := some CMDTAG_EXPLAIN }

/-- The run of `DuckdbPrepare` under the explain portal. -/
def wPrepX : Except String DuckdbPrepareResult × PgState := DuckdbPrepare wEnv wStateX 0 none

/-- The prepared result of the explain-portal run. -/
def wRX : DuckdbPrepareResult :=
  match wPrepX.1 with
  | .ok r => r
  | .error _ => default

/-- The state after the explain-portal run. -/
def wS1X : PgState := wPrepX.2

/-- The run of `CreatePlan` on the base fixtures. -/
def wPlanPair : Except String (Option CustomScan) × PgState := CreatePlan wEnv wState 0 none

/-- The scan node produced by the base `CreatePlan` run. -/
def wNode : CustomScan :=
  match wPlanPair.1 with
  | .ok (some n) => n
  | _ => default

/-- The state after the base `CreatePlan` run. -/
def wS2 : PgState := wPlanPair.2

/-! ### Witness theorems -/

theorem claim_c1_schema_length_and_names_witness :
    ∃ node, CreatePlan wEnv wState 0 none = (.ok (some node), wS1) ∧
      node.custom_scan_tlist.length = wR.prepared.columns.length ∧
      ∀ i, i < wR.prepared.columns.length →
        (node.custom_scan_tlist.getD i default).resname =
          (wR.prepared.columns.getD i default).2 :=
  claim_c1_schema_length_and_names wEnv wState 0 none wR wS1 rfl rfl (by decide)

theorem claim_c2_prepare_error_null_witness :
    CreatePlan wEnvErr wState 0 none =
      (.ok none,
       elog WARNING
         ("(PGDuckDB/CreatePlan) Prepared query returned an error: '" ++ "syntax error")
         wS1Err) ∧
    DuckdbPlanNode wEnvErr wState 0 7 none =
      (.ok none,
       elog WARNING
         ("(PGDuckDB/CreatePlan) Prepared query returned an error: '" ++ "syntax error")
         wS1Err) :=
  claim_c2_prepare_error_null wEnvErr wState 0 7 none wRErr wS1Err "syntax error" rfl rfl

theorem claim_c3_unmappable_type_null_witness :
    ∃ c ∈ wRBad.prepared.columns, ColumnUnmappable wEnvBad c ∧
      CreatePlan wEnvBad wState 0 none =
        (.ok none,
         elog WARNING ("(PGDuckDB/CreatePlan) Cache lookup failed for type " ++
                       toString (wEnvBad.GetPostgresDuckDBType c.1)) wS1Bad) :=
  claim_c3_unmappable_type_null wEnvBad wState 0 none wRBad wS1Bad rfl rfl (by decide)

theorem claim_c4_original_tree_unchanged_witness :
    ((DuckdbPrepare wEnv wState 0 none).2).heap[0]? = wState.heap[0]? ∧
    ((DuckdbPlanNode wEnv wState 0 3 none).2).heap[0]? = wState.heap[0]? :=
  claim_c4_original_tree_unchanged wEnv wState 0 3 none (by decide)

theorem claim_c5_search_path_restored_witness :
    ((DuckdbPrepare wEnv wState 0 none).2).searchPath = wState.searchPath :=
  claim_c5_search_path_restored wEnv wState 0 none (by decide)

theorem claim_c6_planned_stmt_packaging_witness :
    ∃ stmt, DuckdbPlanNode wEnv wState 0 11 none = (.ok (some stmt), wS2) ∧
      stmt.commandType = ((wState.heap[0]?).getD default).commandType ∧
      stmt.hasReturning = !((wState.heap[0]?).getD default).returningList.isEmpty ∧
      stmt.hasModifyingCTE = ((wState.heap[0]?).getD default).hasModifyingCTE ∧
      stmt.canSetTag = ((wState.heap[0]?).getD default).canSetTag ∧
      stmt.subplans = [] ∧ stmt.rowMarks = [] ∧ stmt.resultRelations = [] ∧
      stmt.relationOids = [] ∧ stmt.rtable = [] ∧ stmt.rewindPlanIDs = [] ∧
      stmt.invalItems = [] ∧ stmt.paramExecTypes = [] :=
  claim_c6_planned_stmt_packaging wEnv wState 0 11 none wNode wS2 (by decide) rfl

theorem claim_c7_explain_wrapping_witness :
    wRX.conn.text =
      (if wStateX.duckdb_explain_analyze then "EXPLAIN ANALYZE " else "EXPLAIN ") ++
        "SELECT 1" :=
  claim_c7_explain_wrapping wEnv wStateX 0 none "SELECT 1" wRX wS1X rfl rfl rfl

theorem claim_c8_vars_concat_witness :
    wR.conn.vars =
      wEnv.pull_var_clause
        (Node.ofTargetList ((wState.heap[0]?).getD default).targetList) pvcFlags ++
      wEnv.pull_var_clause
        (Node.ofQuals ((wState.heap[0]?).getD default).jointreeQuals) pvcFlags ∧
    pvcFlags = PVC_RECURSE_AGGREGATES ||| PVC_RECURSE_WINDOWFUNCS ||| PVC_RECURSE_PLACEHOLDERS :=
  claim_c8_vars_concat wEnv wState 0 none wR wS1 rfl

theorem claim_c10_planned_stmt_extra_fields_witness :
    ∃ stmt, DuckdbPlanNode wEnv wState 0 13 none = (.ok (some stmt), wS2) ∧
      stmt.queryId = ((wState.heap[0]?).getD default).queryId ∧
      stmt.utilityStmt = ((wState.heap[0]?).getD default).utilityStmt ∧
      stmt.stmt_location = ((wState.heap[0]?).getD default).stmt_location ∧
      stmt.stmt_len = ((wState.heap[0]?).getD default).stmt_len ∧
      stmt.transientPlan = false ∧ stmt.dependsOnRole = false ∧
      stmt.parallelModeNeeded = false ∧
      (stmt.hasReturning = true ↔ ((wState.heap[0]?).getD default).returningList ≠ []) :=
  claim_c10_planned_stmt_extra_fields wEnv wState 0 13 none wNode wS2 (by decide) rfl

end PgDuckdb
